import Mathlib

/-!
Verification development for the midi-router command routing and tempo
synchronization engine (src/processor.rs and its data model in
src/device.rs, src/mapping.rs).

Modelling conventions:
* Rust f32/f64 values are modelled symbolically by `MidiRouter.F`: either an
  exact rational (rounding of finite IEEE arithmetic is abstracted away; every
  concrete value appearing in the claims is exactly representable), a NaN, or a
  signed infinity.  The arithmetic cases (division by zero, infinity
  propagation, NaN propagation) follow IEEE-754 semantics as implemented by
  Rust; negative zero is not distinguished from positive zero.
* Rust `as` casts from floats to integers are the saturating casts of Rust
  (NaN to 0, truncation toward zero, clamping to the integer range).
* u8/u16/u64 values are modelled as `Nat`; the `& 0x0F` / `& 0x7F` masks and
  the `as u64` truncation become `% 16`, `% 128`, `% 2^64`.
* The external collaborators (rtpmidi session send, OSC socket send+encode,
  the system clock) are inputs: an `Env` record of oracles and, for
  `update_device_tempos`, the observed clock reading in nanoseconds.
* Logging is modelled by trace events carrying a tag (`LogMsg`) identifying
  the log site; the formatted text is abstracted.
* The tokio watch channel used for tap-tempo cancellation is modelled by
  `Event.publish` trace events on the sender side and, on the receiver side,
  by observation oracles `obs` (value of `borrow()` at the check preceding
  each loop iteration) and `wobs` (outcome of the `tokio::select!` during the
  inter-tap sleep: `none` if the sleep completed, `some v` if `changed()`
  fired with new published value `v`).
* `anyhow::Error` is modelled as `String`; fallible operations return
  `Except String Unit` alongside the list of emitted trace events.
-/

namespace MidiRouter

/-- Symbolic IEEE float: exact rational, NaN, or infinity (`neg = true` for
negative infinity). -/
inductive F where
  | num (q : ℚ)
  | nan
  | inf (neg : Bool)
deriving DecidableEq

/-- IEEE subtraction on the symbolic floats. -/
def F.sub : F → F → F
  | F.num a, F.num b => F.num (a - b)
  | F.nan, _ => F.nan
  | _, F.nan => F.nan
  | F.inf s, F.num _ => F.inf s
  | F.num _, F.inf s => F.inf (!s)
  | F.inf s, F.inf t => if s = t then F.nan else F.inf s

/-- IEEE multiplication on the symbolic floats. -/
def F.mul : F → F → F
  | F.num a, F.num b => F.num (a * b)
  | F.nan, _ => F.nan
  | _, F.nan => F.nan
  | F.inf s, F.num b => if b = 0 then F.nan else if b < 0 then F.inf (!s) else F.inf s
  | F.num a, F.inf s => if a = 0 then F.nan else if a < 0 then F.inf (!s) else F.inf s
  | F.inf s, F.inf t => if s = t then F.inf false else F.inf true

/-- IEEE division on the symbolic floats (finite / 0 gives a signed infinity,
0 / 0 gives NaN). -/
def F.div : F → F → F
  | F.num a, F.num b =>
      if b = 0 then (if a = 0 then F.nan else if a < 0 then F.inf true else F.inf false)
      else F.num (a / b)
  | F.nan, _ => F.nan
  | _, F.nan => F.nan
  | F.num _, F.inf _ => F.num 0
  | F.inf s, F.num b => if b < 0 then F.inf (!s) else F.inf s
  | F.inf _, F.inf _ => F.nan

/-- Rust `f64::clamp(lo, hi)`: NaN propagates, infinities clamp to the
bounds, finite values clamp componentwise. -/
def F.clamp (x : F) (lo hi : ℚ) : F :=
  match x with
  | F.num q => if q < lo then F.num lo else if hi < q then F.num hi else F.num q
  | F.nan => F.nan
  | F.inf s => if s then F.num lo else F.num hi

/-- Truncation toward zero of an exact rational, as Rust float-to-int casts do. -/
def truncQ (q : ℚ) : Int := q.num.tdiv q.den

/-- Rust `as u8` saturating cast from a float. -/
def F.toU8 : F → Nat
  | F.nan => 0
  | F.inf s => if s then 0 else 255
  | F.num q => if q < 0 then 0 else min 255 (truncQ q).toNat

/-- Rust `as u64` saturating cast from a float. -/
def F.toU64 : F → Nat
  | F.nan => 0
  | F.inf s => if s then 0 else 2 ^ 64 - 1
  | F.num q => if q < 0 then 0 else min (2 ^ 64 - 1) (truncQ q).toNat

/-- Rust `as i32` saturating cast from a float. -/
def F.toI32 : F → Int
  | F.nan => 0
  | F.inf s => if s then -(2 ^ 31) else 2 ^ 31 - 1
  | F.num q => max (-(2 ^ 31)) (min (2 ^ 31 - 1) (truncQ q))

/-- Rust `as f32` narrowing of an f64; exact in this symbolic model (rounding
is abstracted away). -/
def F.toF32 (x : F) : F := x

/-! ## Data model (src/device.rs, src/mapping.rs) -/

/-- src/device.rs `DeviceType`. -/
inductive DeviceType where
  | Midi
  | Osc
deriving DecidableEq

/-- src/device.rs `OscArg` (the source `String` variant is named `Str` here
to avoid shadowing the builtin type). -/
inductive OscArg where
  | Int (value : Int)
  | Float (value : F)
  | Str (value : String)
  | Bool (value : Bool)
  | Normalized (value min max : F)
deriving DecidableEq

/-- src/device.rs `Command`. -/
inductive Command where
  | ProgramChange (channel program : Nat)
  | ControlChange (channel controller value : Nat)
  | Osc (address : String) (args : List OscArg)
deriving DecidableEq

/-- src/device.rs `TempoDataType`. -/
inductive TempoDataType where
  | Tempo
  | Time
deriving DecidableEq

/-- src/device.rs `TempoSpec`. -/
inductive TempoSpec where
  | TapTempo (commands : List Command)
  | RawTempo (commands : List Command) (data_type : TempoDataType)
deriving DecidableEq

/-- src/device.rs `Program`. -/
structure Program where
  number : Nat
  name : String
  commands : List Command
deriving DecidableEq

/-- src/device.rs `Device`. -/
structure Device where
  id : String
  name : String
  device_type : DeviceType
  programs : List Program
  tempo_spec : Option TempoSpec
deriving DecidableEq

/-- src/device.rs `DeviceConfig`; the `HashMap<String, Device>` is modelled
as an association list with unique keys. -/
structure DeviceConfig where
  devices : List (String × Device)
deriving DecidableEq

/-- src/device.rs `DeviceConfig::get_device`. -/
def DeviceConfig.get_device (cfg : DeviceConfig) (id : String) : Option Device :=
  List.lookup id cfg.devices

/-- src/mapping.rs `OscDestination`. -/
structure OscDestination where
  host : String
  port : Nat
deriving DecidableEq

/-- src/mapping.rs `Destination`. -/
inductive Destination where
  | RtpMidi (session_name : String)
  | Osc (destination_name : String)
deriving DecidableEq

/-- src/mapping.rs `DeviceMapping`. -/
structure DeviceMapping where
  device_id : String
  listen_channel : Nat
  send_channel : Option Nat
  destination : Destination
deriving DecidableEq

/-- src/mapping.rs `MapConfig` (the fields the processor reads; the
`HashMap<String, OscDestination>` is an association list). -/
structure MapConfig where
  osc_destinations : List (String × OscDestination)
  device_mappings : List DeviceMapping
deriving DecidableEq

/-- midi_types::MidiMessage, restricted to the shapes the processor
distinguishes: a ProgramChange or anything else. -/
inductive MidiMessage where
  | ProgramChange (channel program : Nat)
  | ControlChange (channel controller value : Nat)
  | NoteOn (channel note velocity : Nat)
  | Other
deriving DecidableEq

/-! ## Trace events and external environment -/

/-- Identifies a log site in src/processor.rs (the formatted text is
abstracted; the tag determines the call site and severity). -/
inductive LogMsg where
  | tempoUpdatedViaOsc
  | programChangeReceived
  | executingProgram
  | deviceNotFound
  | programNotFound
  | updatingTempoForDevice
  | sendingTapTempo
  | tapTempoCancelled
  | tapTempoCancelledDuringSleep
  | tapTempoCompleted
  | sendingRawTempo
  | noChannelForProgramChange
  | noChannelForControlChange
  | sendingMidiProgramChange
  | sendingMidiControlChange
  | sendingToSession
  | sessionNotFound
  | noSessionManager
  | cannotSendMidiToOsc
  | oscDestinationNotFound
  | cannotSendOscToRtpMidi
  | oscSocketUnavailable
  | sentOsc
  | ignoringMidiMessage
deriving DecidableEq

/-- A MIDI message handed to the rtpmidi session transport, after the
processor applied its channel/value masks. -/
inductive MidiOut where
  | ProgramChange (channel program : Nat)
  | ControlChange (channel controller value : Nat)
deriving DecidableEq

/-- A rosc::OscType value handed to the OSC transport. -/
inductive OscOut where
  | Int (v : Int)
  | Float (v : F)
  | Str (v : String)
  | Bool (v : Bool)
deriving DecidableEq

/-- Observable step of the processor: a value published on the tap-tempo
watch channel, a transport invocation, a timed wait, or a log record. -/
inductive Event where
  | publish (token : Nat)
  | midiSend (session_name : String) (msg : MidiOut)
  | oscSend (host : String) (port : Nat) (address : String) (args : List OscOut)
  | wait (ms : Nat)
  | logWarn (m : LogMsg)
  | logError (m : LogMsg)
  | logInfo (m : LogMsg)
  | logDebug (m : LogMsg)
deriving DecidableEq

/-- True for the two transport-invocation events. -/
def Event.isSend : Event → Bool
  | Event.midiSend _ _ => true
  | Event.oscSend _ _ _ _ => true
  | _ => false

/-- External collaborators of the processor: which named rtpmidi sessions
exist, whether the session manager / OSC socket were materialized, and the
outcome of each transport invocation. -/
structure Env where
  hasSessionManager : Bool
  sessions : List String
  hasOscSocket : Bool
  midiSendResult : String → MidiOut → Except String Unit
  oscSendResult : String → Nat → String → List OscOut → Except String Unit

/-- An environment whose transports accept every send. -/
def EnvOk (env : Env) : Prop :=
  (∀ s m, env.midiSendResult s m = Except.ok ()) ∧
  (∀ h p a args, env.oscSendResult h p a args = Except.ok ())

/-- Result of a processor step: emitted trace plus success or the first
propagated error. -/
abbrev Out := List Event × Except String Unit

/-- Sequencing of a Rust `for` loop whose body ends in `?`: the remaining
elements are not visited once an element fails. -/
def runSeq {α : Type} (f : α → Out) : List α → Out
  | [] => ([], Except.ok ())
  | a :: rest =>
    match f a with
    | (evs, Except.ok _) =>
      let (evs2, r2) := runSeq f rest
      (evs ++ evs2, r2)
    | (evs, Except.error e) => (evs, Except.error e)

/-- `runSeq` with the element position also passed to the body. -/
def runSeqIdx {α : Type} (f : Nat → α → Out) : Nat → List α → Out
  | _, [] => ([], Except.ok ())
  | i, a :: rest =>
    match f i a with
    | (evs, Except.ok _) =>
      let (evs2, r2) := runSeqIdx f (i + 1) rest
      (evs ++ evs2, r2)
    | (evs, Except.error e) => (evs, Except.error e)

/-! ## Command execution (src/processor.rs lines 344-534) -/

/-- src/processor.rs `send_midi_command` (lines 374-421), including
`SessionManager::send_midi_to_session` (src/session_manager.rs lines 27-47).
`Channel::new(channel.saturating_sub(1) & 0x0F)` is `(channel - 1) % 16` on
Nat, `Program::new(program & 0x7F)` is `program % 128`. -/
def send_midi_command (env : Env) (mcfg : MapConfig) (dest : Destination)
    (channel program : Nat) : Out :=
  match dest with
  | Destination.RtpMidi session_name =>
    if env.hasSessionManager then
      let msg := MidiOut.ProgramChange ((channel - 1) % 16) (program % 128)
      if session_name ∈ env.sessions then
        match env.midiSendResult session_name msg with
        | Except.ok _ =>
            ([Event.logInfo LogMsg.sendingMidiProgramChange,
              Event.logInfo LogMsg.sendingToSession,
              Event.midiSend session_name msg], Except.ok ())
        | Except.error e =>
            ([Event.logInfo LogMsg.sendingMidiProgramChange,
              Event.logInfo LogMsg.sendingToSession,
              Event.midiSend session_name msg], Except.error e)
      else
        ([Event.logInfo LogMsg.sendingMidiProgramChange,
          Event.logWarn LogMsg.sessionNotFound], Except.ok ())
    else
      ([Event.logInfo LogMsg.sendingMidiProgramChange,
        Event.logWarn LogMsg.noSessionManager], Except.ok ())
  | Destination.Osc destination_name =>
    match List.lookup destination_name mcfg.osc_destinations with
    | some _ => ([Event.logWarn LogMsg.cannotSendMidiToOsc], Except.ok ())
    | none => ([Event.logWarn LogMsg.oscDestinationNotFound], Except.ok ())

/-- src/processor.rs `send_midi_control_change` (lines 423-473): controller
and value masked with `& 0x7F`, channel recomputed as in
`send_midi_command`. -/
def send_midi_control_change (env : Env) (mcfg : MapConfig) (dest : Destination)
    (channel controller value : Nat) : Out :=
  match dest with
  | Destination.RtpMidi session_name =>
    if env.hasSessionManager then
      let msg := MidiOut.ControlChange ((channel - 1) % 16) (controller % 128) (value % 128)
      if session_name ∈ env.sessions then
        match env.midiSendResult session_name msg with
        | Except.ok _ =>
            ([Event.logInfo LogMsg.sendingMidiControlChange,
              Event.logInfo LogMsg.sendingToSession,
              Event.midiSend session_name msg], Except.ok ())
        | Except.error e =>
            ([Event.logInfo LogMsg.sendingMidiControlChange,
              Event.logInfo LogMsg.sendingToSession,
              Event.midiSend session_name msg], Except.error e)
      else
        ([Event.logInfo LogMsg.sendingMidiControlChange,
          Event.logWarn LogMsg.sessionNotFound], Except.ok ())
    else
      ([Event.logInfo LogMsg.sendingMidiControlChange,
        Event.logWarn LogMsg.noSessionManager], Except.ok ())
  | Destination.Osc destination_name =>
    match List.lookup destination_name mcfg.osc_destinations with
    | some _ => ([Event.logWarn LogMsg.cannotSendMidiToOsc], Except.ok ())
    | none => ([Event.logWarn LogMsg.oscDestinationNotFound], Except.ok ())

/-- Conversion of one config OscArg to the transmitted rosc value
(src/processor.rs lines 488-499); a `Normalized` argument becomes
`(value - min) / (max - min)` with no guard on `max = min`. -/
def convertArg : OscArg → OscOut
  | OscArg.Int v => OscOut.Int v
  | OscArg.Float v => OscOut.Float v
  | OscArg.Str v => OscOut.Str v
  | OscArg.Bool v => OscOut.Bool v
  | OscArg.Normalized v mn mx => OscOut.Float (F.div (F.sub v mn) (F.sub mx mn))

/-- src/processor.rs `send_osc_command` (lines 475-534); the encode+send pair
is one opaque transport invocation. -/
def send_osc_command (env : Env) (mcfg : MapConfig) (dest : Destination)
    (address : String) (args : List OscArg) : Out :=
  match dest with
  | Destination.Osc destination_name =>
    match List.lookup destination_name mcfg.osc_destinations with
    | some od =>
      if env.hasOscSocket then
        let osc_args := args.map convertArg
        match env.oscSendResult od.host od.port address osc_args with
        | Except.ok _ =>
            ([Event.oscSend od.host od.port address osc_args,
              Event.logInfo LogMsg.sentOsc], Except.ok ())
        | Except.error e =>
            ([Event.oscSend od.host od.port address osc_args], Except.error e)
      else ([Event.logError LogMsg.oscSocketUnavailable], Except.ok ())
    | none => ([Event.logWarn LogMsg.oscDestinationNotFound], Except.ok ())
  | Destination.RtpMidi _ => ([Event.logWarn LogMsg.cannotSendOscToRtpMidi], Except.ok ())

/-- src/processor.rs `execute_command` (lines 344-372). -/
def execute_command (env : Env) (mcfg : MapConfig) (cmd : Command)
    (dest : Destination) (channel : Option Nat) : Out :=
  match cmd with
  | Command.ProgramChange _ program =>
    match channel with
    | some ch => send_midi_command env mcfg dest ch program
    | none => ([Event.logWarn LogMsg.noChannelForProgramChange], Except.ok ())
  | Command.ControlChange _ controller value =>
    match channel with
    | some ch => send_midi_control_change env mcfg dest ch controller value
    | none => ([Event.logWarn LogMsg.noChannelForControlChange], Except.ok ())
  | Command.Osc address args => send_osc_command env mcfg dest address args

/-! ## Program change handling (src/processor.rs lines 52-123) -/

/-- Body of the per-mapping branch of `handle_program_change` (lines 94-118):
device lookup, exact program-number lookup, then the command list executed in
declared order with `?` propagation. -/
def per_mapping (env : Env) (dcfg : DeviceConfig) (mcfg : MapConfig)
    (program : Nat) (m : DeviceMapping) : Out :=
  match dcfg.get_device m.device_id with
  | some device =>
    match device.programs.find? (fun p => p.number == program) with
    | some device_program =>
      let (evs, r) := runSeq
        (fun c => execute_command env mcfg c m.destination m.send_channel)
        device_program.commands
      (Event.logInfo LogMsg.executingProgram :: evs, r)
    | none => ([Event.logWarn LogMsg.programNotFound], Except.ok ())
  | none => ([Event.logWarn LogMsg.deviceNotFound], Except.ok ())

/-- src/processor.rs `handle_program_change` (lines 82-123). -/
def handle_program_change (env : Env) (dcfg : DeviceConfig) (mcfg : MapConfig)
    (midi_channel program : Nat) : Out :=
  let (evs, r) := runSeq
    (fun m => if m.listen_channel == midi_channel
              then per_mapping env dcfg mcfg program m
              else ([], Except.ok ()))
    mcfg.device_mappings
  (Event.logInfo LogMsg.programChangeReceived :: evs, r)

/-- Mutable processor state touched by the handlers (the `current_bpm`
cell). -/
structure ProcState where
  current_bpm : Option F
deriving DecidableEq

/-- src/processor.rs `process_midi_message` (lines 52-64): only
ProgramChange triggers routing; everything else is logged at debug level and
ignored. -/
def process_midi_message (env : Env) (dcfg : DeviceConfig) (mcfg : MapConfig)
    (st : ProcState) (message : MidiMessage) : ProcState × Out :=
  match message with
  | MidiMessage.ProgramChange ch program =>
      (st, handle_program_change env dcfg mcfg ch program)
  | _ => (st, ([Event.logDebug LogMsg.ignoringMidiMessage], Except.ok ()))

/-! ## Tempo distribution engine (src/processor.rs lines 125-342) -/

/-- The tap interval `(60.0 / bpm * 1000.0) as u64` (line 213). -/
def quarter_note_ms (bpm : F) : Nat :=
  F.toU64 (F.mul (F.div (F.num 60) bpm) (F.num 1000))

/-- The raw-tempo scalar (lines 270-276): `Tempo` sends bpm unchanged,
`Time` sends `60.0 / bpm * 1000.0`. -/
def raw_tempo_value (data_type : TempoDataType) (bpm : F) : F :=
  match data_type with
  | TempoDataType.Tempo => bpm
  | TempoDataType.Time => F.mul (F.div (F.num 60) bpm) (F.num 1000)

/-- Substitution of the raw-tempo scalar into one OSC argument
(lines 295-306). -/
def raw_tempo_arg (value : F) : OscArg → OscArg
  | OscArg.Float _ => OscArg.Float (F.toF32 value)
  | OscArg.Int _ => OscArg.Int (F.toI32 value)
  | OscArg.Normalized _ mn mx =>
      OscArg.Float (F.div (F.sub (F.toF32 value) mn) (F.sub mx mn))
  | other => other

/-- The fixed BPM-to-CC calibration (lines 320-326): `Tempo` maps the 60-180
BPM domain linearly onto 0-127, `Time` maps the 333-1000 ms domain onto
0-127 inverted; both clamped then cast `as u8`. -/
def cc_value (data_type : TempoDataType) (value : F) : Nat :=
  match data_type with
  | TempoDataType.Tempo =>
      F.toU8 (F.clamp (F.mul (F.div (F.sub value (F.num 60)) (F.num 120)) (F.num 127)) 0 127)
  | TempoDataType.Time =>
      F.toU8 (F.clamp (F.mul (F.div (F.sub (F.num 1000) value) (F.num 667)) (F.num 127)) 0 127)

/-- The per-command rewrite performed by `send_raw_tempo` (lines 289-338):
OSC args substituted, ControlChange value recalibrated, anything else sent
unmodified. -/
def raw_tempo_command (data_type : TempoDataType) (value : F) : Command → Command
  | Command.Osc address args => Command.Osc address (args.map (raw_tempo_arg value))
  | Command.ControlChange ch controller _ =>
      Command.ControlChange ch controller (cc_value data_type value)
  | other => other

/-- src/processor.rs `send_raw_tempo` (lines 261-342). -/
def send_raw_tempo (env : Env) (mcfg : MapConfig) (commands : List Command)
    (data_type : TempoDataType) (bpm : F) (dest : Destination)
    (channel : Option Nat) : Out :=
  let value := raw_tempo_value data_type bpm
  let (evs, r) := runSeq
    (fun c => execute_command env mcfg (raw_tempo_command data_type value c) dest channel)
    commands
  (Event.logInfo LogMsg.sendingRawTempo :: evs, r)

/-- The `for i in 0..4` loop of `send_tap_tempo` (lines 223-254), recursing
on the number of remaining iterations (`rem + i = 4`).  Each iteration first
compares the published token `obs i` with `cancel_id` and halts silently on a
mismatch; after the commands, iterations with `rem > 1` (that is `i < 3`)
perform the interruptible sleep, whose outcome is `wobs i`. -/
def tap_loop (env : Env) (mcfg : MapConfig) (commands : List Command)
    (dest : Destination) (channel : Option Nat) (cancel_id : Nat) (qms : Nat)
    (obs : Nat → Nat) (wobs : Nat → Option Nat) : Nat → Nat → Out
  | _, 0 => ([Event.logInfo LogMsg.tapTempoCompleted], Except.ok ())
  | i, rem + 1 =>
    if obs i ≠ cancel_id then ([Event.logInfo LogMsg.tapTempoCancelled], Except.ok ())
    else
      match runSeq (fun c => execute_command env mcfg c dest channel) commands with
      | (evs, Except.error e) => (evs, Except.error e)
      | (evs, Except.ok _) =>
        if 1 ≤ rem then
          match wobs i with
          | none =>
            let (evs2, r2) := tap_loop env mcfg commands dest channel cancel_id qms obs wobs (i + 1) rem
            (evs ++ Event.wait qms :: evs2, r2)
          | some v =>
            if v ≠ cancel_id then
              (evs ++ [Event.logInfo LogMsg.tapTempoCancelledDuringSleep], Except.ok ())
            else
              let (evs2, r2) := tap_loop env mcfg commands dest channel cancel_id qms obs wobs (i + 1) rem
              (evs ++ evs2, r2)
        else
          let (evs2, r2) := tap_loop env mcfg commands dest channel cancel_id qms obs wobs (i + 1) rem
          (evs ++ evs2, r2)

/-- src/processor.rs `send_tap_tempo` (lines 204-258). -/
def send_tap_tempo (env : Env) (mcfg : MapConfig) (commands : List Command)
    (bpm : F) (dest : Destination) (channel : Option Nat) (cancel_id : Nat)
    (obs : Nat → Nat) (wobs : Nat → Option Nat) : Out :=
  let qms := quarter_note_ms bpm
  let (evs, r) := tap_loop env mcfg commands dest channel cancel_id qms obs wobs 0 4
  (Event.logInfo LogMsg.sendingTapTempo :: evs, r)

/-- src/processor.rs `send_tempo_update` (lines 179-201). -/
def send_tempo_update (env : Env) (mcfg : MapConfig) (tempo_spec : TempoSpec)
    (bpm : F) (dest : Destination) (channel : Option Nat) (cancel_id : Nat)
    (obs : Nat → Nat) (wobs : Nat → Option Nat) : Out :=
  match tempo_spec with
  | TempoSpec.TapTempo commands =>
      send_tap_tempo env mcfg commands bpm dest channel cancel_id obs wobs
  | TempoSpec.RawTempo commands data_type =>
      send_raw_tempo env mcfg commands data_type bpm dest channel

/-- The collection pass of `update_device_tempos` (lines 138-159): for every
mapping whose device exists and carries a tempo spec, the tuple
`(tempo_spec, destination, send_channel)`. -/
def collect_tempo_updates (dcfg : DeviceConfig) (mcfg : MapConfig) :
    List (TempoSpec × Destination × Option Nat) :=
  mcfg.device_mappings.filterMap (fun m =>
    match dcfg.get_device m.device_id with
    | some d =>
      match d.tempo_spec with
      | some ts => some (ts, m.destination, m.send_channel)
      | none => none
    | none => none)

/-- 2^64, the modulus of the `as u64` truncation of the clock reading. -/
def u64Size : Nat := 2 ^ 64

/-- The fan-out loop of `update_device_tempos` (lines 170-173): each device
is awaited in turn with `?` propagation; device `i` observes the watch channel
through `obsF i` / `wobsF i`. -/
def tempo_fan_out (env : Env) (mcfg : MapConfig) (bpm : F) (operation_id : Nat)
    (obsF : Nat → Nat → Nat) (wobsF : Nat → Nat → Option Nat)
    (updates : List (TempoSpec × Destination × Option Nat)) : Out :=
  runSeqIdx
    (fun i u => send_tempo_update env mcfg u.1 bpm u.2.1 u.2.2 operation_id (obsF i) (wobsF i))
    0 updates

/-- src/processor.rs `update_device_tempos` (lines 126-176).  `now` is the
observed clock reading in nanoseconds since the epoch; `cancel_signal` is its
`as u64` truncation and `operation_id` is `cancel_signal + 1` (wrapping).
Both are published on the watch channel, the cancel token before collection
and the run token before the fan-out. -/
def update_device_tempos (env : Env) (dcfg : DeviceConfig) (mcfg : MapConfig)
    (bpm : F) (now : Nat) (obsF : Nat → Nat → Nat)
    (wobsF : Nat → Nat → Option Nat) : Out :=
  let cancel_signal := now % u64Size
  let operation_id := (cancel_signal + 1) % u64Size
  let updates := collect_tempo_updates dcfg mcfg
  let (evs, r) := tempo_fan_out env mcfg bpm operation_id obsF wobsF updates
  (Event.publish cancel_signal ::
     (updates.map (fun _ => Event.logInfo LogMsg.updatingTempoForDevice) ++
       Event.publish operation_id :: evs), r)

/-- src/processor.rs `handle_osc_tempo` (lines 67-79): log, store the bpm,
then run `update_device_tempos`. -/
def handle_osc_tempo (env : Env) (dcfg : DeviceConfig) (mcfg : MapConfig)
    (_st : ProcState) (bpm : F) (now : Nat) (obsF : Nat → Nat → Nat)
    (wobsF : Nat → Nat → Option Nat) : ProcState × Out :=
  let st2 : ProcState := { current_bpm := some bpm }
  let (evs, r) := update_device_tempos env dcfg mcfg bpm now obsF wobsF
  (st2, (Event.logInfo LogMsg.tempoUpdatedViaOsc :: evs, r))

/-! ## Whole-run helpers for the epoch claims -/

/-- Trace of a sequence of tempo updates handled one after the other, the
update at position `k` observing clock reading `nows.get k`. -/
def run_tempo_updates (env : Env) (dcfg : DeviceConfig) (mcfg : MapConfig)
    (bpm : F) (obsF : Nat → Nat → Nat) (wobsF : Nat → Nat → Option Nat) :
    List Nat → List Event
  | [] => []
  | t :: rest =>
    (update_device_tempos env dcfg mcfg bpm t obsF wobsF).1 ++
      run_tempo_updates env dcfg mcfg bpm obsF wobsF rest

/-- The tokens published on the watch channel, in publication order. -/
def publishesOf : List Event → List Nat
  | [] => []
  | Event.publish t :: rest => t :: publishesOf rest
  | _ :: rest => publishesOf rest

/-- The pair of tokens minted by one `update_device_tempos` call per clock
reading, concatenated over a run. -/
def publishedTokens (nows : List Nat) : List Nat :=
  nows.flatMap (fun t => [t % u64Size, (t % u64Size + 1) % u64Size])

/-- Computable check that a list of tokens is non-decreasing. -/
def chain_le : List Nat → Bool
  | [] => true
  | [_] => true
  | a :: b :: rest => decide (a ≤ b) && chain_le (b :: rest)

/-- Computable check that a list of tokens is strictly increasing. -/
def chain_lt : List Nat → Bool
  | [] => true
  | [_] => true
  | a :: b :: rest => decide (a < b) && chain_lt (b :: rest)

/-- Computable check that consecutive clock readings advance by at least 2
nanoseconds. -/
def chain_step2 : List Nat → Bool
  | [] => true
  | [_] => true
  | a :: b :: rest => decide (a + 2 ≤ b) && chain_step2 (b :: rest)


/-! ## Shared lemmas -/

theorem execute_command_ok (env : Env) (hok : EnvOk env) (mcfg : MapConfig)
    (cmd : Command) (dest : Destination) (channel : Option Nat) :
    (execute_command env mcfg cmd dest channel).2 = Except.ok () := by
  obtain ⟨h1, h2⟩ := hok
  unfold execute_command send_midi_command send_midi_control_change send_osc_command
  repeat' split
  all_goals first
    | rfl
    | simp_all [h1, h2]

theorem runSeq_ok {α : Type} (f : α → Out) (l : List α)
    (h : ∀ a ∈ l, (f a).2 = Except.ok ()) :
    runSeq f l = (l.flatMap (fun a => (f a).1), Except.ok ()) := by
  induction l with
  | nil => simp [runSeq]
  | cons a rest ih =>
    have ha := h a (by simp)
    rcases hfa : f a with ⟨evs, r⟩
    rw [hfa] at ha; simp only at ha; subst ha
    simp [runSeq, hfa, ih (fun x hx => h x (by simp [hx]))]

theorem runSeq_append_error {α : Type} (f : α → Out) (l1 : List α) (a : α)
    (l2 : List α) (e : String) (h1 : ∀ x ∈ l1, (f x).2 = Except.ok ())
    (h2 : (f a).2 = Except.error e) :
    runSeq f (l1 ++ a :: l2)
      = (l1.flatMap (fun x => (f x).1) ++ (f a).1, Except.error e) := by
  induction l1 with
  | nil =>
    rcases hfa : f a with ⟨evs, r⟩
    rw [hfa] at h2; simp only at h2; subst h2
    simp [runSeq, hfa]
  | cons x rest ih =>
    have hx := h1 x (by simp)
    rcases hfx : f x with ⟨evs, r⟩
    rw [hfx] at hx; simp only at hx; subst hx
    simp [runSeq, hfx, ih (fun y hy => h1 y (by simp [hy]))]

theorem runSeqIdx_cons_error {α : Type} (f : Nat → α → Out) (i : Nat) (a : α)
    (l : List α) (e : String) (h : (f i a).2 = Except.error e) :
    runSeqIdx f i (a :: l) = ((f i a).1, Except.error e) := by
  rcases hfa : f i a with ⟨evs, r⟩
  rw [hfa] at h; simp only at h; subst h
  simp [runSeqIdx, hfa]

/-! Unfolding equations presenting the destructuring `let` bodies through
projections, for use in the claim proofs. -/

theorem send_tap_tempo_def (env : Env) (mcfg : MapConfig) (commands : List Command)
    (bpm : F) (dest : Destination) (channel : Option Nat) (cancel_id : Nat)
    (obs : Nat → Nat) (wobs : Nat → Option Nat) :
    send_tap_tempo env mcfg commands bpm dest channel cancel_id obs wobs
      = (Event.logInfo LogMsg.sendingTapTempo ::
          (tap_loop env mcfg commands dest channel cancel_id (quarter_note_ms bpm) obs wobs 0 4).1,
         (tap_loop env mcfg commands dest channel cancel_id (quarter_note_ms bpm) obs wobs 0 4).2) := by
  rcases h : tap_loop env mcfg commands dest channel cancel_id (quarter_note_ms bpm) obs wobs 0 4
    with ⟨evs, r⟩
  simp [send_tap_tempo, h]

theorem send_raw_tempo_def (env : Env) (mcfg : MapConfig) (commands : List Command)
    (data_type : TempoDataType) (bpm : F) (dest : Destination) (channel : Option Nat) :
    send_raw_tempo env mcfg commands data_type bpm dest channel
      = (Event.logInfo LogMsg.sendingRawTempo ::
          (runSeq (fun c => execute_command env mcfg
            (raw_tempo_command data_type (raw_tempo_value data_type bpm) c) dest channel) commands).1,
         (runSeq (fun c => execute_command env mcfg
            (raw_tempo_command data_type (raw_tempo_value data_type bpm) c) dest channel) commands).2) := by
  rcases h : runSeq (fun c => execute_command env mcfg
      (raw_tempo_command data_type (raw_tempo_value data_type bpm) c) dest channel) commands
    with ⟨evs, r⟩
  simp [send_raw_tempo, h]

theorem handle_program_change_def (env : Env) (dcfg : DeviceConfig) (mcfg : MapConfig)
    (midi_channel program : Nat) :
    handle_program_change env dcfg mcfg midi_channel program
      = (Event.logInfo LogMsg.programChangeReceived ::
          (runSeq (fun m => if m.listen_channel == midi_channel
              then per_mapping env dcfg mcfg program m
              else ([], Except.ok ())) mcfg.device_mappings).1,
         (runSeq (fun m => if m.listen_channel == midi_channel
              then per_mapping env dcfg mcfg program m
              else ([], Except.ok ())) mcfg.device_mappings).2) := by
  rcases h : runSeq (fun m => if m.listen_channel == midi_channel
      then per_mapping env dcfg mcfg program m
      else ([], Except.ok ())) mcfg.device_mappings with ⟨evs, r⟩
  simp [handle_program_change, h]

theorem per_mapping_resolved (env : Env) (dcfg : DeviceConfig) (mcfg : MapConfig)
    (program : Nat) (m : DeviceMapping) (d : Device) (p : Program)
    (hd : dcfg.get_device m.device_id = some d)
    (hp : d.programs.find? (fun pr => pr.number == program) = some p) :
    per_mapping env dcfg mcfg program m
      = (Event.logInfo LogMsg.executingProgram ::
          (runSeq (fun c => execute_command env mcfg c m.destination m.send_channel) p.commands).1,
         (runSeq (fun c => execute_command env mcfg c m.destination m.send_channel) p.commands).2) := by
  rcases h : runSeq (fun c => execute_command env mcfg c m.destination m.send_channel) p.commands
    with ⟨evs, r⟩
  simp [per_mapping, hd, hp, h]

theorem update_device_tempos_def (env : Env) (dcfg : DeviceConfig) (mcfg : MapConfig)
    (bpm : F) (now : Nat) (obsF : Nat → Nat → Nat) (wobsF : Nat → Nat → Option Nat) :
    update_device_tempos env dcfg mcfg bpm now obsF wobsF
      = (Event.publish (now % u64Size) ::
          ((collect_tempo_updates dcfg mcfg).map (fun _ => Event.logInfo LogMsg.updatingTempoForDevice) ++
            Event.publish ((now % u64Size + 1) % u64Size) ::
              (tempo_fan_out env mcfg bpm ((now % u64Size + 1) % u64Size) obsF wobsF
                (collect_tempo_updates dcfg mcfg)).1),
         (tempo_fan_out env mcfg bpm ((now % u64Size + 1) % u64Size) obsF wobsF
           (collect_tempo_updates dcfg mcfg)).2) := by
  rcases h : tempo_fan_out env mcfg bpm ((now % u64Size + 1) % u64Size) obsF wobsF
      (collect_tempo_updates dcfg mcfg) with ⟨evs, r⟩
  rw [Nat.mod_add_mod] at h
  simp [update_device_tempos, h]

theorem handle_osc_tempo_def (env : Env) (dcfg : DeviceConfig) (mcfg : MapConfig)
    (st : ProcState) (bpm : F) (now : Nat) (obsF : Nat → Nat → Nat)
    (wobsF : Nat → Nat → Option Nat) :
    handle_osc_tempo env dcfg mcfg st bpm now obsF wobsF
      = ({ current_bpm := some bpm },
         (Event.logInfo LogMsg.tempoUpdatedViaOsc ::
            (update_device_tempos env dcfg mcfg bpm now obsF wobsF).1,
          (update_device_tempos env dcfg mcfg bpm now obsF wobsF).2)) := by
  rcases h : update_device_tempos env dcfg mcfg bpm now obsF wobsF with ⟨evs, r⟩
  simp [handle_osc_tempo, h]

/-! Step equations for the tap loop. -/

theorem tap_loop_zero (env : Env) (mcfg : MapConfig) (commands : List Command)
    (dest : Destination) (channel : Option Nat) (cancel_id qms : Nat)
    (obs : Nat → Nat) (wobs : Nat → Option Nat) (i : Nat) :
    tap_loop env mcfg commands dest channel cancel_id qms obs wobs i 0
      = ([Event.logInfo LogMsg.tapTempoCompleted], Except.ok ()) := rfl

theorem tap_loop_cancelled (env : Env) (mcfg : MapConfig) (commands : List Command)
    (dest : Destination) (channel : Option Nat) (cancel_id qms : Nat)
    (obs : Nat → Nat) (wobs : Nat → Option Nat) (i rem : Nat)
    (hobs : obs i ≠ cancel_id) :
    tap_loop env mcfg commands dest channel cancel_id qms obs wobs i (rem + 1)
      = ([Event.logInfo LogMsg.tapTempoCancelled], Except.ok ()) := by
  simp [tap_loop, hobs]

theorem tap_loop_error (env : Env) (mcfg : MapConfig) (commands : List Command)
    (dest : Destination) (channel : Option Nat) (cancel_id qms : Nat)
    (obs : Nat → Nat) (wobs : Nat → Option Nat) (i rem : Nat)
    (evs : List Event) (e : String) (hobs : obs i = cancel_id)
    (hrs : runSeq (fun c => execute_command env mcfg c dest channel) commands
      = (evs, Except.error e)) :
    tap_loop env mcfg commands dest channel cancel_id qms obs wobs i (rem + 1)
      = (evs, Except.error e) := by
  simp [tap_loop, hobs, hrs]

theorem tap_loop_wait (env : Env) (mcfg : MapConfig) (commands : List Command)
    (dest : Destination) (channel : Option Nat) (cancel_id qms : Nat)
    (obs : Nat → Nat) (wobs : Nat → Option Nat) (i rem : Nat)
    (evs : List Event) (hobs : obs i = cancel_id)
    (hrs : runSeq (fun c => execute_command env mcfg c dest channel) commands
      = (evs, Except.ok ()))
    (hrem : 1 ≤ rem) (hwo : wobs i = none) :
    tap_loop env mcfg commands dest channel cancel_id qms obs wobs i (rem + 1)
      = (evs ++ Event.wait qms ::
          (tap_loop env mcfg commands dest channel cancel_id qms obs wobs (i + 1) rem).1,
         (tap_loop env mcfg commands dest channel cancel_id qms obs wobs (i + 1) rem).2) := by
  rcases h2 : tap_loop env mcfg commands dest channel cancel_id qms obs wobs (i + 1) rem
    with ⟨evs2, r2⟩
  simp [tap_loop, hobs, hrs, hrem, hwo, h2]

theorem tap_loop_interrupted (env : Env) (mcfg : MapConfig) (commands : List Command)
    (dest : Destination) (channel : Option Nat) (cancel_id qms : Nat)
    (obs : Nat → Nat) (wobs : Nat → Option Nat) (i rem : Nat)
    (evs : List Event) (v : Nat) (hobs : obs i = cancel_id)
    (hrs : runSeq (fun c => execute_command env mcfg c dest channel) commands
      = (evs, Except.ok ()))
    (hrem : 1 ≤ rem) (hwo : wobs i = some v) (hv : v ≠ cancel_id) :
    tap_loop env mcfg commands dest channel cancel_id qms obs wobs i (rem + 1)
      = (evs ++ [Event.logInfo LogMsg.tapTempoCancelledDuringSleep], Except.ok ()) := by
  simp [tap_loop, hobs, hrs, hrem, hwo, hv]

theorem tap_loop_resumed (env : Env) (mcfg : MapConfig) (commands : List Command)
    (dest : Destination) (channel : Option Nat) (cancel_id qms : Nat)
    (obs : Nat → Nat) (wobs : Nat → Option Nat) (i rem : Nat)
    (evs : List Event) (v : Nat) (hobs : obs i = cancel_id)
    (hrs : runSeq (fun c => execute_command env mcfg c dest channel) commands
      = (evs, Except.ok ()))
    (hrem : 1 ≤ rem) (hwo : wobs i = some v) (hv : v = cancel_id) :
    tap_loop env mcfg commands dest channel cancel_id qms obs wobs i (rem + 1)
      = (evs ++ (tap_loop env mcfg commands dest channel cancel_id qms obs wobs (i + 1) rem).1,
         (tap_loop env mcfg commands dest channel cancel_id qms obs wobs (i + 1) rem).2) := by
  rcases h2 : tap_loop env mcfg commands dest channel cancel_id qms obs wobs (i + 1) rem
    with ⟨evs2, r2⟩
  simp [tap_loop, hobs, hrs, hrem, hwo, hv, h2]

theorem tap_loop_last (env : Env) (mcfg : MapConfig) (commands : List Command)
    (dest : Destination) (channel : Option Nat) (cancel_id qms : Nat)
    (obs : Nat → Nat) (wobs : Nat → Option Nat) (i : Nat)
    (evs : List Event) (hobs : obs i = cancel_id)
    (hrs : runSeq (fun c => execute_command env mcfg c dest channel) commands
      = (evs, Except.ok ())) :
    tap_loop env mcfg commands dest channel cancel_id qms obs wobs i 1
      = (evs ++ [Event.logInfo LogMsg.tapTempoCompleted], Except.ok ()) := by
  simp [tap_loop, hobs, hrs]

/-! No publish event originates below `update_device_tempos`. -/

theorem publishesOf_append (a b : List Event) :
    publishesOf (a ++ b) = publishesOf a ++ publishesOf b := by
  induction a with
  | nil => simp [publishesOf]
  | cons e rest ih => cases e <;> simp [publishesOf, ih]

theorem publishesOf_send_midi_command (env : Env) (mcfg : MapConfig)
    (dest : Destination) (ch p : Nat) :
    publishesOf (send_midi_command env mcfg dest ch p).1 = [] := by
  unfold send_midi_command
  cases dest with
  | RtpMidi s =>
    by_cases h1 : env.hasSessionManager
    · by_cases h2 : s ∈ env.sessions
      · cases h3 : env.midiSendResult s (MidiOut.ProgramChange ((ch - 1) % 16) (p % 128)) <;>
          simp [h1, h2, h3, publishesOf]
      · simp [h1, h2, publishesOf]
    · simp [h1, publishesOf]
  | Osc d =>
    cases h : List.lookup d mcfg.osc_destinations <;> simp [h, publishesOf]

theorem publishesOf_send_midi_control_change (env : Env) (mcfg : MapConfig)
    (dest : Destination) (ch k v : Nat) :
    publishesOf (send_midi_control_change env mcfg dest ch k v).1 = [] := by
  unfold send_midi_control_change
  cases dest with
  | RtpMidi s =>
    by_cases h1 : env.hasSessionManager
    · by_cases h2 : s ∈ env.sessions
      · cases h3 : env.midiSendResult s
            (MidiOut.ControlChange ((ch - 1) % 16) (k % 128) (v % 128)) <;>
          simp [h1, h2, h3, publishesOf]
      · simp [h1, h2, publishesOf]
    · simp [h1, publishesOf]
  | Osc d =>
    cases h : List.lookup d mcfg.osc_destinations <;> simp [h, publishesOf]

theorem publishesOf_send_osc_command (env : Env) (mcfg : MapConfig)
    (dest : Destination) (address : String) (args : List OscArg) :
    publishesOf (send_osc_command env mcfg dest address args).1 = [] := by
  unfold send_osc_command
  cases dest with
  | RtpMidi s => simp [publishesOf]
  | Osc d =>
    cases h : List.lookup d mcfg.osc_destinations with
    | none => simp [h, publishesOf]
    | some od =>
      by_cases h1 : env.hasOscSocket
      · cases h2 : env.oscSendResult od.host od.port address (args.map convertArg) <;>
          simp [h, h1, h2, publishesOf]
      · simp [h, h1, publishesOf]

theorem publishesOf_execute (env : Env) (mcfg : MapConfig) (cmd : Command)
    (dest : Destination) (channel : Option Nat) :
    publishesOf (execute_command env mcfg cmd dest channel).1 = [] := by
  cases cmd <;> cases channel <;>
    simp [execute_command, publishesOf, publishesOf_send_midi_command,
      publishesOf_send_midi_control_change, publishesOf_send_osc_command]

theorem publishesOf_runSeq {α : Type} (f : α → Out) (l : List α)
    (h : ∀ a ∈ l, publishesOf (f a).1 = []) :
    publishesOf (runSeq f l).1 = [] := by
  induction l with
  | nil => simp [runSeq, publishesOf]
  | cons a rest ih =>
    rcases hfa : f a with ⟨evs, r⟩
    have ha : publishesOf evs = [] := by
      have h2 := h a (by simp); rwa [hfa] at h2
    cases r with
    | ok u =>
      simp [runSeq, hfa, publishesOf_append, ha,
        ih (fun x hx => h x (by simp [hx]))]
    | error e => simp [runSeq, hfa, ha]

theorem publishesOf_tap_loop (env : Env) (mcfg : MapConfig)
    (commands : List Command) (dest : Destination) (channel : Option Nat)
    (cancel_id qms : Nat) (obs : Nat → Nat) (wobs : Nat → Option Nat)
    (i rem : Nat) :
    publishesOf (tap_loop env mcfg commands dest channel cancel_id qms obs wobs i rem).1
      = [] := by
  induction rem generalizing i with
  | zero => simp [tap_loop_zero, publishesOf]
  | succ rem ih =>
    rcases hrs : runSeq (fun c => execute_command env mcfg c dest channel) commands
      with ⟨evs, r⟩
    have hseq : publishesOf evs = [] := by
      have h := publishesOf_runSeq (fun c => execute_command env mcfg c dest channel)
        commands (fun c _ => publishesOf_execute env mcfg c dest channel)
      rw [hrs] at h; exact h
    by_cases hobs : obs i = cancel_id
    · cases r with
      | error e =>
        rw [tap_loop_error env mcfg commands dest channel cancel_id qms obs wobs i rem evs e hobs hrs]
        exact hseq
      | ok u =>
        rcases u
        by_cases hrem : 1 ≤ rem
        · cases hwo : wobs i with
          | none =>
            rw [tap_loop_wait env mcfg commands dest channel cancel_id qms obs wobs i rem evs hobs hrs hrem hwo]
            simp [publishesOf_append, hseq, publishesOf, ih]
          | some v =>
            by_cases hv : v = cancel_id
            · rw [tap_loop_resumed env mcfg commands dest channel cancel_id qms obs wobs i rem evs v hobs hrs hrem hwo hv]
              simp [publishesOf_append, hseq, ih]
            · rw [tap_loop_interrupted env mcfg commands dest channel cancel_id qms obs wobs i rem evs v hobs hrs hrem hwo hv]
              simp [publishesOf_append, hseq, publishesOf]
        · have hrem0 : rem = 0 := by omega
          subst hrem0
          rw [tap_loop_last env mcfg commands dest channel cancel_id qms obs wobs i evs hobs hrs]
          simp [publishesOf_append, hseq, publishesOf]
    · rw [tap_loop_cancelled env mcfg commands dest channel cancel_id qms obs wobs i rem hobs]
      simp [publishesOf]

theorem publishesOf_logInfo_cons (m : LogMsg) (l : List Event) :
    publishesOf (Event.logInfo m :: l) = publishesOf l := rfl

theorem publishesOf_send_tempo_update (env : Env) (mcfg : MapConfig)
    (ts : TempoSpec) (bpm : F) (dest : Destination) (channel : Option Nat)
    (cancel_id : Nat) (obs : Nat → Nat) (wobs : Nat → Option Nat) :
    publishesOf (send_tempo_update env mcfg ts bpm dest channel cancel_id obs wobs).1 = [] := by
  cases ts with
  | TapTempo commands =>
    simp only [send_tempo_update, send_tap_tempo_def, publishesOf_logInfo_cons]
    exact publishesOf_tap_loop env mcfg commands dest channel cancel_id
      (quarter_note_ms bpm) obs wobs 0 4
  | RawTempo commands data_type =>
    simp only [send_tempo_update, send_raw_tempo_def, publishesOf_logInfo_cons]
    exact publishesOf_runSeq _ _ (fun c _ => publishesOf_execute env mcfg _ dest channel)

theorem publishesOf_runSeqIdx {α : Type} (f : Nat → α → Out) (i : Nat) (l : List α)
    (h : ∀ j a, publishesOf (f j a).1 = []) :
    publishesOf (runSeqIdx f i l).1 = [] := by
  induction l generalizing i with
  | nil => simp [runSeqIdx, publishesOf]
  | cons a rest ih =>
    rcases hfa : f i a with ⟨evs, r⟩
    have ha : publishesOf evs = [] := by
      have h2 := h i a; rwa [hfa] at h2
    cases r with
    | ok u => simp [runSeqIdx, hfa, publishesOf_append, ha, ih]
    | error e => simp [runSeqIdx, hfa, ha]

theorem publishesOf_replicate_info (m : LogMsg) (n : Nat) :
    publishesOf (List.replicate n (Event.logInfo m)) = [] := by
  induction n with
  | zero => simp [publishesOf]
  | succ n ih => simp [List.replicate, publishesOf, ih]

/-- One `update_device_tempos` call publishes exactly the truncated clock
reading followed by its wrapping successor, and nothing else. -/
theorem publishesOf_update_device_tempos (env : Env) (dcfg : DeviceConfig)
    (mcfg : MapConfig) (bpm : F) (now : Nat) (obsF : Nat → Nat → Nat)
    (wobsF : Nat → Nat → Option Nat) :
    publishesOf (update_device_tempos env dcfg mcfg bpm now obsF wobsF).1
      = [now % u64Size, (now % u64Size + 1) % u64Size] := by
  have hfan : publishesOf (tempo_fan_out env mcfg bpm ((now % u64Size + 1) % u64Size)
      obsF wobsF (collect_tempo_updates dcfg mcfg)).1 = [] :=
    publishesOf_runSeqIdx _ 0 _
      (fun j u => publishesOf_send_tempo_update env mcfg u.1 bpm u.2.1 u.2.2 _ (obsF j) (wobsF j))
  rw [Nat.mod_add_mod] at hfan
  rw [update_device_tempos_def]
  simp [publishesOf, publishesOf_append, publishesOf_replicate_info, hfan]

/-- Over a whole run, the published tokens are exactly `publishedTokens` of
the observed clock readings. -/
theorem publishesOf_run_tempo_updates (env : Env) (dcfg : DeviceConfig)
    (mcfg : MapConfig) (bpm : F) (obsF : Nat → Nat → Nat)
    (wobsF : Nat → Nat → Option Nat) (nows : List Nat) :
    publishesOf (run_tempo_updates env dcfg mcfg bpm obsF wobsF nows)
      = publishedTokens nows := by
  induction nows with
  | nil => simp [run_tempo_updates, publishedTokens, publishesOf]
  | cons t rest ih =>
    simp [run_tempo_updates, publishedTokens, publishesOf_append,
      publishesOf_update_device_tempos, ih]

/-! ## Concrete fixtures used by witnesses and counterexamples -/

/-- Environment with no collaborators and always-succeeding transports. -/
def env0 : Env :=
  { hasSessionManager := false
    sessions := []
    hasOscSocket := false
    midiSendResult := fun _ _ => Except.ok ()
    oscSendResult := fun _ _ _ _ => Except.ok () }

def sessA : String := "s"

/-- Environment with one live session and a working OSC socket, every send
accepted. -/
def envLive : Env :=
  { hasSessionManager := true
    sessions := [sessA]
    hasOscSocket := true
    midiSendResult := fun _ _ => Except.ok ()
    oscSendResult := fun _ _ _ _ => Except.ok () }

theorem env0_ok : EnvOk env0 :=
  ⟨fun _ _ => rfl, fun _ _ _ _ => rfl⟩

theorem envLive_ok : EnvOk envLive :=
  ⟨fun _ _ => rfl, fun _ _ _ _ => rfl⟩

def obs0 : Nat → Nat → Nat := fun _ _ => 0
def wobs0 : Nat → Nat → Option Nat := fun _ _ => none
def dcfg0 : DeviceConfig := { devices := [] }
def mcfg0 : MapConfig :=
  { osc_destinations := []
    device_mappings := [] }

/-! ## Claim C1: epoch token minting and monotonicity -/

theorem publishedTokens_cons (t : Nat) (rest : List Nat) (h : t + 1 < u64Size) :
    publishedTokens (t :: rest) = t :: (t + 1) :: publishedTokens rest := by
  have ht : t < u64Size := by omega
  simp [publishedTokens, Nat.mod_eq_of_lt ht, Nat.mod_eq_of_lt h]

/-- C1 counterexample: with two tempo updates whose clock readings are the
same nanosecond (reading 5 twice), the published token stream is
`[5, 6, 5, 6]`: the second update's tokens are not strictly greater than the
first update's and the published epoch is not monotonically non-decreasing. -/
theorem C1_counterexample :
    publishesOf (run_tempo_updates env0 dcfg0 mcfg0 (F.num 120) obs0 wobs0 [5, 5])
        = [5, 6, 5, 6] ∧
    chain_le (publishesOf (run_tempo_updates env0 dcfg0 mcfg0 (F.num 120) obs0 wobs0 [5, 5]))
        = false := by
  exact ⟨by decide, by decide⟩

/-- C1 (amended): each tempo update publishes `epoch_cancel = now mod 2^64`
(the truncated clock reading) and then `epoch_run = epoch_cancel + 1 mod
2^64`; `epoch_run > epoch_cancel` whenever the truncated reading is below
`2^64 - 1`; and the whole published stream is strictly increasing provided
consecutive clock readings advance by at least 2 nanoseconds and stay below
`2^64 - 1` — with a non-advancing clock the stream is not monotone. -/
theorem C1_epoch_tokens :
    (∀ (env : Env) (dcfg : DeviceConfig) (mcfg : MapConfig) (bpm : F)
        (obsF : Nat → Nat → Nat) (wobsF : Nat → Nat → Option Nat) (nows : List Nat),
      publishesOf (run_tempo_updates env dcfg mcfg bpm obsF wobsF nows)
        = publishedTokens nows) ∧
    (∀ t : Nat, t % u64Size + 1 < u64Size →
      t % u64Size < (t % u64Size + 1) % u64Size) ∧
    (∀ nows : List Nat, (∀ t ∈ nows, t + 1 < u64Size) →
      chain_step2 nows = true → chain_lt (publishedTokens nows) = true) := by
  refine ⟨publishesOf_run_tempo_updates, ?_, ?_⟩
  · intro t h
    rw [Nat.mod_eq_of_lt h]
    omega
  · intro nows
    induction nows with
    | nil => intro _ _; rfl
    | cons t rest ih =>
      intro hb hs
      have hbt : t + 1 < u64Size := hb t (by simp)
      rw [publishedTokens_cons t rest hbt]
      cases rest with
      | nil => simp [publishedTokens, chain_lt]
      | cons u rest2 =>
        have hbu : u + 1 < u64Size := hb u (by simp)
        have hs1 : t + 2 ≤ u ∧ chain_step2 (u :: rest2) = true := by
          simpa [chain_step2] using hs
        have ih2 := ih (fun x hx => hb x (by simp [hx])) hs1.2
        rw [publishedTokens_cons u rest2 hbu] at ih2 ⊢
        simp only [chain_lt, Bool.and_eq_true, decide_eq_true_eq] at ih2 ⊢
        exact ⟨by omega, by omega, ih2⟩

/-- Witness for C1_epoch_tokens at clock readings 5 and 8. -/
theorem C1_epoch_tokens_witness :
    publishesOf (run_tempo_updates env0 dcfg0 mcfg0 (F.num 120) obs0 wobs0 [5, 8])
        = publishedTokens [5, 8] ∧
    chain_lt (publishedTokens [5, 8]) = true := by
  refine ⟨C1_epoch_tokens.1 env0 dcfg0 mcfg0 (F.num 120) obs0 wobs0 [5, 8],
    C1_epoch_tokens.2.2 [5, 8] (by decide) (by decide)⟩

/-! ## Claim C2: transport failures and command lists -/

def sD : String := "d"
def sOut : String := "o"
def sHost : String := "h"
def addrA : String := "/a"
def addrB : String := "/b"
def eBoom : String := "boom"

/-- Environment whose OSC transport rejects sends to address `/a` and accepts
everything else. -/
def envFailA : Env :=
  { hasSessionManager := false
    sessions := []
    hasOscSocket := true
    midiSendResult := fun _ _ => Except.ok ()
    oscSendResult := fun _ _ addr _ => if addr = addrA then Except.error eBoom else Except.ok () }

/-- Device with one program (number 0) holding two OSC commands. -/
def devD : Device :=
  { id := sD
    name := sD
    device_type := DeviceType.Osc
    programs := [{ number := 0, name := sD, commands := [Command.Osc addrA [], Command.Osc addrB []] }]
    tempo_spec := none }

def dcfgAB : DeviceConfig := { devices := [(sD, devD)] }

def mcfgAB : MapConfig :=
  { osc_destinations := [(sOut, { host := sHost, port := 9 })]
    device_mappings := [{ device_id := sD, listen_channel := 1, send_channel := none, destination := Destination.Osc sOut }] }

/-- C2 counterexample: a program with two OSC commands where the transport
rejects the first send.  The handler stops with the propagated error: the
second command is never attempted and no failure log event is emitted inside
the handler, contradicting the claim that a send failure is logged and does
not abort the remainder of the command list. -/
theorem C2_counterexample :
    handle_program_change envFailA dcfgAB mcfgAB 1 0
      = ([Event.logInfo LogMsg.programChangeReceived, Event.logInfo LogMsg.executingProgram,
          Event.oscSend sHost 9 addrA []], Except.error eBoom) ∧
    Event.oscSend sHost 9 addrB [] ∉ (handle_program_change envFailA dcfgAB mcfgAB 1 0).1 := by
  exact ⟨by rfl, by decide⟩

/-- C2 (amended): a transport send failure is returned as an error from the
event handler: it aborts the remaining commands of the command list, and a
failure while updating one device aborts the tempo fan-out to the remaining
devices; the error is logged only by the spawning task outside the
processor. -/
theorem C2_transport_failure_aborts :
    (∀ (env : Env) (mcfg : MapConfig) (dest : Destination) (channel : Option Nat)
        (cs1 : List Command) (c : Command) (cs2 : List Command) (e : String),
      (∀ c1 ∈ cs1, (execute_command env mcfg c1 dest channel).2 = Except.ok ()) →
      (execute_command env mcfg c dest channel).2 = Except.error e →
      runSeq (fun k => execute_command env mcfg k dest channel) (cs1 ++ c :: cs2)
        = (cs1.flatMap (fun k => (execute_command env mcfg k dest channel).1)
            ++ (execute_command env mcfg c dest channel).1, Except.error e)) ∧
    (∀ (env : Env) (mcfg : MapConfig) (bpm : F) (cancel_id : Nat)
        (obsF : Nat → Nat → Nat) (wobsF : Nat → Nat → Option Nat)
        (u : TempoSpec × Destination × Option Nat)
        (us : List (TempoSpec × Destination × Option Nat)) (e : String),
      (send_tempo_update env mcfg u.1 bpm u.2.1 u.2.2 cancel_id (obsF 0) (wobsF 0)).2
          = Except.error e →
      tempo_fan_out env mcfg bpm cancel_id obsF wobsF (u :: us)
        = ((send_tempo_update env mcfg u.1 bpm u.2.1 u.2.2 cancel_id (obsF 0) (wobsF 0)).1,
           Except.error e)) := by
  constructor
  · intro env mcfg dest channel cs1 c cs2 e h1 h2
    exact runSeq_append_error _ cs1 c cs2 e h1 h2
  · intro env mcfg bpm cancel_id obsF wobsF u us e h
    exact runSeqIdx_cons_error _ 0 u us e h

/-- Witness for C2_transport_failure_aborts: the two-command list of the
counterexample configuration, and a one-device raw-tempo fan-out. -/
theorem C2_transport_failure_aborts_witness :
    runSeq (fun k => execute_command envFailA mcfgAB k (Destination.Osc sOut) none)
        ([] ++ Command.Osc addrA [] :: [Command.Osc addrB []])
      = (([] : List Command).flatMap (fun k => (execute_command envFailA mcfgAB k (Destination.Osc sOut) none).1)
          ++ (execute_command envFailA mcfgAB (Command.Osc addrA []) (Destination.Osc sOut) none).1,
         Except.error eBoom) ∧
    tempo_fan_out envFailA mcfgAB (F.num 120) 7 obs0 wobs0
        [(TempoSpec.RawTempo [Command.Osc addrA []] TempoDataType.Tempo, Destination.Osc sOut, none)]
      = ((send_tempo_update envFailA mcfgAB (TempoSpec.RawTempo [Command.Osc addrA []] TempoDataType.Tempo)
            (F.num 120) (Destination.Osc sOut) none 7 (obs0 0) (wobs0 0)).1,
         Except.error eBoom) := by
  refine ⟨C2_transport_failure_aborts.1 envFailA mcfgAB (Destination.Osc sOut) none
      [] (Command.Osc addrA []) [Command.Osc addrB []] eBoom (by simp) (by rfl),
    C2_transport_failure_aborts.2 envFailA mcfgAB (F.num 120) 7 obs0 wobs0
      (TempoSpec.RawTempo [Command.Osc addrA []] TempoDataType.Tempo, Destination.Osc sOut, none)
      [] eBoom (by rfl)⟩

/-! ## Claim C3: tap tempo pacing, supersession check, and completion -/

/-- Events of one tap iteration: every command of the spec executed in
declared order. -/
def tap_iter_events (env : Env) (mcfg : MapConfig) (commands : List Command)
    (dest : Destination) (channel : Option Nat) : List Event :=
  commands.flatMap (fun c => (execute_command env mcfg c dest channel).1)

theorem tap_loop_completes (env : Env) (mcfg : MapConfig) (commands : List Command)
    (dest : Destination) (channel : Option Nat) (cancel_id qms : Nat)
    (obs : Nat → Nat) (wobs : Nat → Option Nat)
    (hrs : runSeq (fun c => execute_command env mcfg c dest channel) commands
      = (tap_iter_events env mcfg commands dest channel, Except.ok ()))
    (hobs : ∀ i, obs i = cancel_id) (hw : ∀ i, wobs i = none) :
    ∀ (rem i : Nat), 1 ≤ rem →
      tap_loop env mcfg commands dest channel cancel_id qms obs wobs i rem
        = ((List.replicate (rem - 1)
              (tap_iter_events env mcfg commands dest channel ++ [Event.wait qms])).flatten
            ++ tap_iter_events env mcfg commands dest channel
            ++ [Event.logInfo LogMsg.tapTempoCompleted],
           Except.ok ()) := by
  intro rem
  induction rem with
  | zero => intro i h; omega
  | succ rem ih =>
    intro i _
    by_cases hrem : 1 ≤ rem
    · rw [tap_loop_wait env mcfg commands dest channel cancel_id qms obs wobs i rem
        (tap_iter_events env mcfg commands dest channel) (hobs i) hrs hrem (hw i)]
      rw [ih (i + 1) hrem]
      have hrep : rem + 1 - 1 = (rem - 1) + 1 := by omega
      simp [hrep, List.replicate_succ]
    · have hrem0 : rem = 0 := by omega
      subst hrem0
      rw [tap_loop_last env mcfg commands dest channel cancel_id qms obs wobs i
        (tap_iter_events env mcfg commands dest channel) (hobs i) hrs]
      simp

theorem tap_loop_halts (env : Env) (mcfg : MapConfig) (commands : List Command)
    (dest : Destination) (channel : Option Nat) (cancel_id qms : Nat)
    (obs : Nat → Nat) (wobs : Nat → Option Nat) (j : Nat)
    (hrs : runSeq (fun c => execute_command env mcfg c dest channel) commands
      = (tap_iter_events env mcfg commands dest channel, Except.ok ()))
    (hpre : ∀ k, k < j → obs k = cancel_id) (hwpre : ∀ k, k < j → wobs k = none)
    (hj : obs j ≠ cancel_id) (hj4 : j < 4) :
    ∀ (rem i : Nat), i + rem = 4 → i ≤ j →
      tap_loop env mcfg commands dest channel cancel_id qms obs wobs i rem
        = ((List.replicate (j - i)
              (tap_iter_events env mcfg commands dest channel ++ [Event.wait qms])).flatten
            ++ [Event.logInfo LogMsg.tapTempoCancelled],
           Except.ok ()) := by
  intro rem
  induction rem with
  | zero => intro i h4 hij; omega
  | succ rem ih =>
    intro i h4 hij
    by_cases hie : i = j
    · subst hie
      rw [tap_loop_cancelled env mcfg commands dest channel cancel_id qms obs wobs i rem hj]
      simp
    · have hilt : i < j := by omega
      have hrem : 1 ≤ rem := by omega
      rw [tap_loop_wait env mcfg commands dest channel cancel_id qms obs wobs i rem
        (tap_iter_events env mcfg commands dest channel) (hpre i hilt) hrs hrem (hwpre i hilt)]
      rw [ih (i + 1) (by omega) (by omega)]
      have hrep : j - i = (j - (i + 1)) + 1 := by omega
      rw [hrep]
      simp [List.replicate_succ]

/-- C3: a tap-tempo sequence runs exactly 4 iterations; before each iteration
it compares its operation token against the currently published token and, on
a mismatch, halts silently with success having emitted no further commands;
if the published token never changes (and the transport accepts every send),
every command of the spec is executed in declared order exactly 4 times, with
the three inter-tap waits of `(60.0 / bpm * 1000.0) as u64` milliseconds —
500 ms at 120 BPM. -/
theorem C3_tap_tempo (env : Env) (mcfg : MapConfig) (commands : List Command)
    (bpm : F) (dest : Destination) (channel : Option Nat) (cancel_id : Nat)
    (hok : EnvOk env) :
    (∀ (obs : Nat → Nat) (wobs : Nat → Option Nat) (j : Nat), j < 4 →
      (∀ i, i < j → obs i = cancel_id) → (∀ i, i < j → wobs i = none) →
      obs j ≠ cancel_id →
      send_tap_tempo env mcfg commands bpm dest channel cancel_id obs wobs
        = (Event.logInfo LogMsg.sendingTapTempo ::
            ((List.replicate j (tap_iter_events env mcfg commands dest channel
                ++ [Event.wait (quarter_note_ms bpm)])).flatten
              ++ [Event.logInfo LogMsg.tapTempoCancelled]),
           Except.ok ())) ∧
    (∀ (obs : Nat → Nat) (wobs : Nat → Option Nat),
      (∀ i, obs i = cancel_id) → (∀ i, wobs i = none) →
      send_tap_tempo env mcfg commands bpm dest channel cancel_id obs wobs
        = (Event.logInfo LogMsg.sendingTapTempo ::
            ((List.replicate 3 (tap_iter_events env mcfg commands dest channel
                ++ [Event.wait (quarter_note_ms bpm)])).flatten
              ++ tap_iter_events env mcfg commands dest channel
              ++ [Event.logInfo LogMsg.tapTempoCompleted]),
           Except.ok ())) ∧
    quarter_note_ms (F.num 120) = 500 := by
  have hrs : runSeq (fun c => execute_command env mcfg c dest channel) commands
      = (tap_iter_events env mcfg commands dest channel, Except.ok ()) :=
    runSeq_ok _ _ (fun c _ => execute_command_ok env hok mcfg c dest channel)
  refine ⟨?_, ?_, ?_⟩
  · intro obs wobs j hj hpre hwpre hj2
    rw [send_tap_tempo_def]
    rw [tap_loop_halts env mcfg commands dest channel cancel_id (quarter_note_ms bpm)
      obs wobs j hrs hpre hwpre hj2 hj 4 0 (by omega) (by omega)]
    simp
  · intro obs wobs hobs hw
    rw [send_tap_tempo_def]
    rw [tap_loop_completes env mcfg commands dest channel cancel_id (quarter_note_ms bpm)
      obs wobs hrs hobs hw 4 0 (by omega)]
  · have h1 : F.div (F.num 60) (F.num 120) = F.num (1 / 2) := by norm_num [F.div]
    have h2 : F.mul (F.num (1 / 2)) (F.num 1000) = F.num 500 := by norm_num [F.mul]
    rw [quarter_note_ms, h1, h2]
    norm_num [F.toU64, truncQ, Rat.num_ofNat, Rat.den_ofNat]
    rfl

/-- Witness for C3_tap_tempo: a single-command tap spec at 120 BPM with the
published token never changing. -/
theorem C3_tap_tempo_witness :
    send_tap_tempo env0 mcfg0 [Command.Osc addrA []] (F.num 120) (Destination.Osc sOut) none 7
        (fun _ => 7) (fun _ => none)
      = (Event.logInfo LogMsg.sendingTapTempo ::
          ((List.replicate 3 (tap_iter_events env0 mcfg0 [Command.Osc addrA []] (Destination.Osc sOut) none
              ++ [Event.wait (quarter_note_ms (F.num 120))])).flatten
            ++ tap_iter_events env0 mcfg0 [Command.Osc addrA []] (Destination.Osc sOut) none
            ++ [Event.logInfo LogMsg.tapTempoCompleted]),
         Except.ok ()) ∧
    quarter_note_ms (F.num 120) = 500 :=
  ⟨(C3_tap_tempo env0 mcfg0 [Command.Osc addrA []] (F.num 120) (Destination.Osc sOut) none 7 env0_ok).2.1
      (fun _ => 7) (fun _ => none) (fun _ => rfl) (fun _ => rfl),
   (C3_tap_tempo env0 mcfg0 [Command.Osc addrA []] (F.num 120) (Destination.Osc sOut) none 7 env0_ok).2.2⟩

/-! ## Claim C4: normalized argument conversion and the degenerate range -/

/-- C4 counterexample: a `Normalized{value=1, min=1, max=1}` argument is
transmitted as `Float NaN` with a success result and no warning or error
event: the degenerate `min == max` division is not guarded and no reportable
error is produced. -/
theorem C4_counterexample :
    send_osc_command envLive mcfgAB (Destination.Osc sOut) addrA
        [OscArg.Normalized (F.num 1) (F.num 1) (F.num 1)]
      = ([Event.oscSend sHost 9 addrA [OscOut.Float F.nan], Event.logInfo LogMsg.sentOsc],
         Except.ok ()) := by
  have harg : convertArg (OscArg.Normalized (F.num 1) (F.num 1) (F.num 1)) = OscOut.Float F.nan := by
    norm_num [convertArg, F.sub, F.div]
  simp [send_osc_command, mcfgAB, envLive, harg]

/-- C4 (amended): for `min < max` a Normalized argument is transmitted as
the plain float `(value - min) / (max - min)` (both on the program-change
path and on the raw-tempo path); for `min == max` the division is performed
anyway: the transmitted value is NaN (when `value = min`) or a signed
infinity (otherwise), the send succeeds, and no error is reported. -/
theorem C4_normalized_args (v mn mx : ℚ) :
    (mn < mx → convertArg (OscArg.Normalized (F.num v) (F.num mn) (F.num mx))
        = OscOut.Float (F.num ((v - mn) / (mx - mn)))) ∧
    (mn < mx → raw_tempo_arg (F.num v) (OscArg.Normalized (F.num 0) (F.num mn) (F.num mx))
        = OscArg.Float (F.num ((v - mn) / (mx - mn)))) ∧
    (convertArg (OscArg.Normalized (F.num v) (F.num mn) (F.num mn))
        = OscOut.Float (if v = mn then F.nan else if v < mn then F.inf true else F.inf false)) ∧
    (∀ (env : Env) (mcfg : MapConfig) (name : String) (od : OscDestination) (address : String),
      List.lookup name mcfg.osc_destinations = some od →
      env.hasOscSocket = true →
      env.oscSendResult od.host od.port address
          [OscOut.Float (if v = mn then F.nan else if v < mn then F.inf true else F.inf false)]
        = Except.ok () →
      send_osc_command env mcfg (Destination.Osc name) address
          [OscArg.Normalized (F.num v) (F.num mn) (F.num mn)]
        = ([Event.oscSend od.host od.port address
              [OscOut.Float (if v = mn then F.nan else if v < mn then F.inf true else F.inf false)],
            Event.logInfo LogMsg.sentOsc], Except.ok ())) := by
  have hdeg : convertArg (OscArg.Normalized (F.num v) (F.num mn) (F.num mn))
      = OscOut.Float (if v = mn then F.nan else if v < mn then F.inf true else F.inf false) := by
    simp [convertArg, F.sub, F.div, sub_eq_zero, sub_neg]
  refine ⟨?_, ?_, hdeg, ?_⟩
  · intro h
    have h2 : mx - mn ≠ 0 := ne_of_gt (by linarith)
    simp [convertArg, F.sub, F.div, h2]
  · intro h
    have h2 : mx - mn ≠ 0 := ne_of_gt (by linarith)
    simp [raw_tempo_arg, F.toF32, F.sub, F.div, h2]
  · intro env mcfg name od address hlk hsock hres
    simp [send_osc_command, hlk, hsock, hdeg, hres]

/-- Witness for C4_normalized_args at `v=1, mn=0, mx=2` (proper range) and
`v=1, mn=mx=1` (degenerate range, NaN silently sent). -/
theorem C4_normalized_args_witness :
    convertArg (OscArg.Normalized (F.num 1) (F.num 0) (F.num 2))
      = OscOut.Float (F.num ((1 - 0) / (2 - 0))) ∧
    send_osc_command envLive mcfgAB (Destination.Osc sOut) addrB
        [OscArg.Normalized (F.num 1) (F.num 1) (F.num 1)]
      = ([Event.oscSend sHost 9 addrB
            [OscOut.Float (if (1 : ℚ) = 1 then F.nan else if (1 : ℚ) < 1 then F.inf true else F.inf false)],
          Event.logInfo LogMsg.sentOsc], Except.ok ()) :=
  ⟨(C4_normalized_args 1 0 2).1 (by norm_num),
   (C4_normalized_args 1 1 1).2.2.2 envLive mcfgAB sOut { host := sHost, port := 9 } addrB
     (by rfl) (by rfl) (by rfl)⟩

/-! ## Claim C5: raw tempo scalar, substitution, calibration -/

theorem wait_not_mem_send_midi_command (env : Env) (mcfg : MapConfig)
    (dest : Destination) (ch p n : Nat) :
    Event.wait n ∉ (send_midi_command env mcfg dest ch p).1 := by
  unfold send_midi_command
  cases dest with
  | RtpMidi s =>
    by_cases h1 : env.hasSessionManager
    · by_cases h2 : s ∈ env.sessions
      · cases h3 : env.midiSendResult s (MidiOut.ProgramChange ((ch - 1) % 16) (p % 128)) <;>
          simp [h1, h2, h3]
      · simp [h1, h2]
    · simp [h1]
  | Osc d =>
    cases h : List.lookup d mcfg.osc_destinations <;> simp [h]

theorem wait_not_mem_send_midi_control_change (env : Env) (mcfg : MapConfig)
    (dest : Destination) (ch k v n : Nat) :
    Event.wait n ∉ (send_midi_control_change env mcfg dest ch k v).1 := by
  unfold send_midi_control_change
  cases dest with
  | RtpMidi s =>
    by_cases h1 : env.hasSessionManager
    · by_cases h2 : s ∈ env.sessions
      · cases h3 : env.midiSendResult s
            (MidiOut.ControlChange ((ch - 1) % 16) (k % 128) (v % 128)) <;>
          simp [h1, h2, h3]
      · simp [h1, h2]
    · simp [h1]
  | Osc d =>
    cases h : List.lookup d mcfg.osc_destinations <;> simp [h]

theorem wait_not_mem_send_osc_command (env : Env) (mcfg : MapConfig)
    (dest : Destination) (address : String) (args : List OscArg) (n : Nat) :
    Event.wait n ∉ (send_osc_command env mcfg dest address args).1 := by
  unfold send_osc_command
  cases dest with
  | RtpMidi s => simp
  | Osc d =>
    cases h : List.lookup d mcfg.osc_destinations with
    | none => simp [h]
    | some od =>
      by_cases h1 : env.hasOscSocket
      · cases h2 : env.oscSendResult od.host od.port address (args.map convertArg) <;>
          simp [h, h1, h2]
      · simp [h, h1]

theorem wait_not_mem_execute (env : Env) (mcfg : MapConfig) (cmd : Command)
    (dest : Destination) (channel : Option Nat) (n : Nat) :
    Event.wait n ∉ (execute_command env mcfg cmd dest channel).1 := by
  cases cmd <;> cases channel <;>
    simp [execute_command, wait_not_mem_send_midi_command,
      wait_not_mem_send_midi_control_change, wait_not_mem_send_osc_command]

/-- C5: the raw-tempo scalar is computed once (`Tempo` passes bpm through,
`Time` yields `60000 / bpm`, 500 at 120 BPM); each `OscCommand` has its
Float/Int args replaced by the (cast) scalar and each Normalized arg replaced
by a plain Float `(scalar - min) / (max - min)`; a ControlChange value is
recalibrated by the fixed 60-180 BPM (resp. inverted 333-1000 ms) clamped
linear map; other command kinds pass through unmodified; every command is
executed exactly once in order with no pacing wait events. -/
theorem C5_raw_tempo (env : Env) (mcfg : MapConfig) (dest : Destination)
    (channel : Option Nat) (hok : EnvOk env) :
    (∀ bpm : F, raw_tempo_value TempoDataType.Tempo bpm = bpm) ∧
    (∀ b : ℚ, b ≠ 0 → raw_tempo_value TempoDataType.Time (F.num b) = F.num (60000 / b)) ∧
    (raw_tempo_value TempoDataType.Time (F.num 120) = F.num 500) ∧
    (∀ (commands : List Command) (data_type : TempoDataType) (bpm : F),
      send_raw_tempo env mcfg commands data_type bpm dest channel
        = (Event.logInfo LogMsg.sendingRawTempo ::
            commands.flatMap (fun c => (execute_command env mcfg
              (raw_tempo_command data_type (raw_tempo_value data_type bpm) c) dest channel).1),
           Except.ok ())) ∧
    (∀ (commands : List Command) (data_type : TempoDataType) (bpm : F) (n : Nat),
      Event.wait n ∉ (send_raw_tempo env mcfg commands data_type bpm dest channel).1) ∧
    (∀ (value : F) (x : F) (k : Int) (s : String) (b : Bool) (v mn mx : F),
      raw_tempo_arg value (OscArg.Float x) = OscArg.Float (F.toF32 value) ∧
      raw_tempo_arg value (OscArg.Int k) = OscArg.Int (F.toI32 value) ∧
      raw_tempo_arg value (OscArg.Normalized v mn mx)
        = OscArg.Float (F.div (F.sub (F.toF32 value) mn) (F.sub mx mn)) ∧
      raw_tempo_arg value (OscArg.Str s) = OscArg.Str s ∧
      raw_tempo_arg value (OscArg.Bool b) = OscArg.Bool b) ∧
    (∀ (data_type : TempoDataType) (value : F) (address : String) (args : List OscArg)
        (ch k x a b : Nat),
      raw_tempo_command data_type value (Command.Osc address args)
        = Command.Osc address (args.map (raw_tempo_arg value)) ∧
      raw_tempo_command data_type value (Command.ControlChange ch k x)
        = Command.ControlChange ch k (cc_value data_type value) ∧
      raw_tempo_command data_type value (Command.ProgramChange a b)
        = Command.ProgramChange a b) ∧
    (cc_value TempoDataType.Tempo (F.num 60) = 0 ∧
     cc_value TempoDataType.Tempo (F.num 180) = 127 ∧
     cc_value TempoDataType.Tempo (F.num 30) = 0 ∧
     cc_value TempoDataType.Time (F.num 1000) = 0 ∧
     cc_value TempoDataType.Time (F.num 333) = 127 ∧
     cc_value TempoDataType.Time (F.num 2000) = 0 ∧
     cc_value TempoDataType.Time (F.num 100) = 127) := by
  refine ⟨fun bpm => rfl, ?_, ?_, ?_, ?_, ?_, ?_, ?_⟩
  · intro b hb
    simp [raw_tempo_value, F.div, F.mul, hb, div_mul_eq_mul_div]
    norm_num
  · have h1 : F.div (F.num 60) (F.num 120) = F.num (1 / 2) := by norm_num [F.div]
    have h2 : F.mul (F.num (1 / 2)) (F.num 1000) = F.num 500 := by norm_num [F.mul]
    rw [raw_tempo_value, h1, h2]
  · intro commands data_type bpm
    rw [send_raw_tempo_def]
    rw [runSeq_ok _ _ (fun c _ => execute_command_ok env hok mcfg _ dest channel)]
  · intro commands data_type bpm n
    rw [send_raw_tempo_def]
    rw [runSeq_ok _ _ (fun c _ => execute_command_ok env hok mcfg _ dest channel)]
    simp only [List.mem_cons, List.mem_flatMap]
    rintro (h | ⟨c, _, hmem⟩)
    · exact absurd h (by simp)
    · exact wait_not_mem_execute env mcfg _ dest channel n hmem
  · intro value x k s b v mn mx
    exact ⟨rfl, rfl, rfl, rfl, rfl⟩
  · intro data_type value address args ch k x a b
    exact ⟨rfl, rfl, rfl⟩
  · refine ⟨?_, ?_, ?_, ?_, ?_, ?_, ?_⟩ <;>
      norm_num [cc_value, F.sub, F.div, F.mul, F.clamp, F.toU8, truncQ,
        Rat.num_ofNat, Rat.den_ofNat] <;> rfl

/-- Witness for C5_raw_tempo: the Time scalar at 120 BPM, the CC calibration
at 60 BPM, and the trace of a one-command raw-tempo send. -/
theorem C5_raw_tempo_witness :
    raw_tempo_value TempoDataType.Time (F.num 120) = F.num 500 ∧
    raw_tempo_value TempoDataType.Time (F.num 120) = F.num (60000 / 120) ∧
    cc_value TempoDataType.Tempo (F.num 60) = 0 ∧
    send_raw_tempo env0 mcfg0 [Command.ProgramChange 1 2] TempoDataType.Tempo (F.num 120)
        (Destination.Osc sOut) none
      = (Event.logInfo LogMsg.sendingRawTempo ::
          ([Command.ProgramChange 1 2]).flatMap (fun c => (execute_command env0 mcfg0
              (raw_tempo_command TempoDataType.Tempo (raw_tempo_value TempoDataType.Tempo (F.num 120)) c)
              (Destination.Osc sOut) none).1),
         Except.ok ()) :=
  ⟨(C5_raw_tempo env0 mcfg0 (Destination.Osc sOut) none env0_ok).2.2.1,
   (C5_raw_tempo env0 mcfg0 (Destination.Osc sOut) none env0_ok).2.1 120 (by norm_num),
   (C5_raw_tempo env0 mcfg0 (Destination.Osc sOut) none env0_ok).2.2.2.2.2.2.2.1,
   (C5_raw_tempo env0 mcfg0 (Destination.Osc sOut) none env0_ok).2.2.2.1
     [Command.ProgramChange 1 2] TempoDataType.Tempo (F.num 120)⟩

/-! ## Claim C6: program change resolution and partial success -/

theorem per_mapping_ok (env : Env) (dcfg : DeviceConfig) (mcfg : MapConfig)
    (prog : Nat) (m : DeviceMapping) (hok : EnvOk env) :
    (per_mapping env dcfg mcfg prog m).2 = Except.ok () := by
  cases hd : dcfg.get_device m.device_id with
  | none => simp [per_mapping, hd]
  | some d =>
    cases hp : d.programs.find? (fun p => p.number == prog) with
    | none => simp [per_mapping, hd, hp]
    | some p =>
      rw [per_mapping_resolved env dcfg mcfg prog m d p hd hp]
      rw [runSeq_ok _ _ (fun c _ => execute_command_ok env hok mcfg c m.destination m.send_channel)]

/-- C6: on a program change, every mapping whose listen channel equals the
incoming channel is processed independently: a missing device or missing
program contributes exactly one warning and no execution, while a resolved
program's commands are executed in declared order against the mapping's
destination and send channel; with accepting transports the handler returns
success and its trace is the concatenation of the per-mapping traces. -/
theorem C6_program_change (env : Env) (dcfg : DeviceConfig) (mcfg : MapConfig)
    (ch prog : Nat) (hok : EnvOk env) :
    (handle_program_change env dcfg mcfg ch prog
      = (Event.logInfo LogMsg.programChangeReceived ::
          mcfg.device_mappings.flatMap (fun m =>
            if m.listen_channel == ch then (per_mapping env dcfg mcfg prog m).1 else []),
         Except.ok ())) ∧
    (∀ m : DeviceMapping, dcfg.get_device m.device_id = none →
        per_mapping env dcfg mcfg prog m
          = ([Event.logWarn LogMsg.deviceNotFound], Except.ok ())) ∧
    (∀ (m : DeviceMapping) (d : Device), dcfg.get_device m.device_id = some d →
        d.programs.find? (fun p => p.number == prog) = none →
        per_mapping env dcfg mcfg prog m
          = ([Event.logWarn LogMsg.programNotFound], Except.ok ())) ∧
    (∀ (m : DeviceMapping) (d : Device) (p : Program),
        dcfg.get_device m.device_id = some d →
        d.programs.find? (fun pr => pr.number == prog) = some p →
        per_mapping env dcfg mcfg prog m
          = (Event.logInfo LogMsg.executingProgram ::
              p.commands.flatMap (fun c =>
                (execute_command env mcfg c m.destination m.send_channel).1),
             Except.ok ())) := by
  refine ⟨?_, ?_, ?_, ?_⟩
  · rw [handle_program_change_def]
    rw [runSeq_ok _ _ (fun m _ => by
      by_cases hm : m.listen_channel == ch
      · simp only [hm, if_true]
        exact per_mapping_ok env dcfg mcfg prog m hok
      · simp [hm])]
    simp [apply_ite]
  · intro m hd
    simp [per_mapping, hd]
  · intro m d hd hp
    simp [per_mapping, hd, hp]
  · intro m d p hd hp
    rw [per_mapping_resolved env dcfg mcfg prog m d p hd hp]
    rw [runSeq_ok _ _ (fun c _ => execute_command_ok env hok mcfg c m.destination m.send_channel)]

def sE : String := "e"

/-- Mapping configuration with one unresolvable mapping (device id `e`) and
one resolvable mapping (device id `d`), both listening on channel 1. -/
def mcfgC6 : MapConfig :=
  { osc_destinations := [(sOut, { host := sHost, port := 9 })]
    device_mappings :=
      [{ device_id := sE, listen_channel := 1, send_channel := none, destination := Destination.Osc sOut },
       { device_id := sD, listen_channel := 1, send_channel := none, destination := Destination.Osc sOut }] }

/-- Witness for C6_program_change: one unresolved and one resolved mapping on
the same channel. -/
theorem C6_program_change_witness :
    handle_program_change envLive dcfgAB mcfgC6 1 0
      = (Event.logInfo LogMsg.programChangeReceived ::
          mcfgC6.device_mappings.flatMap (fun m =>
            if m.listen_channel == 1 then (per_mapping envLive dcfgAB mcfgC6 0 m).1 else []),
         Except.ok ()) ∧
    per_mapping envLive dcfgAB mcfgC6 0
        { device_id := sE, listen_channel := 1, send_channel := none, destination := Destination.Osc sOut }
      = ([Event.logWarn LogMsg.deviceNotFound], Except.ok ()) :=
  ⟨(C6_program_change envLive dcfgAB mcfgC6 1 0 envLive_ok).1,
   (C6_program_change envLive dcfgAB mcfgC6 1 0 envLive_ok).2.1
     { device_id := sE, listen_channel := 1, send_channel := none, destination := Destination.Osc sOut }
     (by rfl)⟩

/-! ## Claim C7: domain mismatches are logged and skipped -/

/-- C7: a ProgramChange/ControlChange against an OSC destination, an
OscCommand against an RTP MIDI session, a MIDI command with no send channel,
and an OscCommand naming an unknown OSC destination all return success with a
single warning event and no transport invocation, so sibling commands and
mappings proceed. -/
theorem C7_domain_mismatch (env : Env) (mcfg : MapConfig) :
    (∀ (chv p ch : Nat) (name : String),
      execute_command env mcfg (Command.ProgramChange chv p) (Destination.Osc name) (some ch)
        = ((if (List.lookup name mcfg.osc_destinations).isSome
              then [Event.logWarn LogMsg.cannotSendMidiToOsc]
              else [Event.logWarn LogMsg.oscDestinationNotFound]), Except.ok ())) ∧
    (∀ (chv k v ch : Nat) (name : String),
      execute_command env mcfg (Command.ControlChange chv k v) (Destination.Osc name) (some ch)
        = ((if (List.lookup name mcfg.osc_destinations).isSome
              then [Event.logWarn LogMsg.cannotSendMidiToOsc]
              else [Event.logWarn LogMsg.oscDestinationNotFound]), Except.ok ())) ∧
    (∀ (address : String) (args : List OscArg) (s : String) (channel : Option Nat),
      execute_command env mcfg (Command.Osc address args) (Destination.RtpMidi s) channel
        = ([Event.logWarn LogMsg.cannotSendOscToRtpMidi], Except.ok ())) ∧
    (∀ (chv p : Nat) (dest : Destination),
      execute_command env mcfg (Command.ProgramChange chv p) dest none
        = ([Event.logWarn LogMsg.noChannelForProgramChange], Except.ok ())) ∧
    (∀ (chv k v : Nat) (dest : Destination),
      execute_command env mcfg (Command.ControlChange chv k v) dest none
        = ([Event.logWarn LogMsg.noChannelForControlChange], Except.ok ())) ∧
    (∀ (address : String) (args : List OscArg) (name : String) (channel : Option Nat),
      List.lookup name mcfg.osc_destinations = none →
      execute_command env mcfg (Command.Osc address args) (Destination.Osc name) channel
        = ([Event.logWarn LogMsg.oscDestinationNotFound], Except.ok ())) := by
  refine ⟨?_, ?_, ?_, fun _ _ _ => rfl, fun _ _ _ _ => rfl, ?_⟩
  · intro chv p ch name
    cases h : List.lookup name mcfg.osc_destinations <;>
      simp [execute_command, send_midi_command, h]
  · intro chv k v ch name
    cases h : List.lookup name mcfg.osc_destinations <;>
      simp [execute_command, send_midi_control_change, h]
  · intro address args s channel
    cases channel <;> rfl
  · intro address args name channel hlk
    cases channel <;> simp [execute_command, send_osc_command, hlk]

def sMissing : String := "x"

/-- Witness for C7_domain_mismatch: a MIDI command aimed at the configured
OSC destination, an OSC command aimed at an RTP MIDI session, a command with
no send channel, and an unknown destination name. -/
theorem C7_domain_mismatch_witness :
    execute_command envLive mcfgAB (Command.ProgramChange 1 2) (Destination.Osc sOut) (some 1)
      = ((if (List.lookup sOut mcfgAB.osc_destinations).isSome
            then [Event.logWarn LogMsg.cannotSendMidiToOsc]
            else [Event.logWarn LogMsg.oscDestinationNotFound]), Except.ok ()) ∧
    execute_command envLive mcfgAB (Command.Osc addrA []) (Destination.RtpMidi sessA) (some 1)
      = ([Event.logWarn LogMsg.cannotSendOscToRtpMidi], Except.ok ()) ∧
    execute_command envLive mcfgAB (Command.ProgramChange 1 2) (Destination.RtpMidi sessA) none
      = ([Event.logWarn LogMsg.noChannelForProgramChange], Except.ok ()) ∧
    execute_command envLive mcfgAB (Command.Osc addrA []) (Destination.Osc sMissing) (some 1)
      = ([Event.logWarn LogMsg.oscDestinationNotFound], Except.ok ()) :=
  ⟨(C7_domain_mismatch envLive mcfgAB).1 1 2 1 sOut,
   (C7_domain_mismatch envLive mcfgAB).2.2.1 addrA [] sessA (some 1),
   (C7_domain_mismatch envLive mcfgAB).2.2.2.1 1 2 (Destination.RtpMidi sessA),
   (C7_domain_mismatch envLive mcfgAB).2.2.2.2.2 addrA [] sMissing (some 1) (by rfl)⟩

/-! ## Claim C8: channel and value clamping on MIDI sends -/

/-- C8: every MIDI message handed to the session transport carries the
channel recomputed to zero-based form and masked into 4 bits
(`(channel - 1) % 16 < 16`), the program masked into 7 bits, and for a
ControlChange the controller and value masked into 7 bits each. -/
theorem C8_midi_clamping (env : Env) (mcfg : MapConfig) :
    (∀ (s sess : String) (ch p : Nat) (m : MidiOut),
      Event.midiSend sess m ∈ (send_midi_command env mcfg (Destination.RtpMidi s) ch p).1 →
      sess = s ∧ m = MidiOut.ProgramChange ((ch - 1) % 16) (p % 128) ∧
        (ch - 1) % 16 < 16 ∧ p % 128 < 128) ∧
    (∀ (s sess : String) (ch k v : Nat) (m : MidiOut),
      Event.midiSend sess m ∈ (send_midi_control_change env mcfg (Destination.RtpMidi s) ch k v).1 →
      sess = s ∧ m = MidiOut.ControlChange ((ch - 1) % 16) (k % 128) (v % 128) ∧
        (ch - 1) % 16 < 16 ∧ k % 128 < 128 ∧ v % 128 < 128) := by
  constructor
  · intro s sess ch p m hmem
    unfold send_midi_command at hmem
    by_cases h1 : env.hasSessionManager
    · by_cases h2 : s ∈ env.sessions
      · cases h3 : env.midiSendResult s (MidiOut.ProgramChange ((ch - 1) % 16) (p % 128)) <;>
          simp [h1, h2, h3] at hmem
        all_goals
          obtain ⟨rfl, rfl⟩ := hmem
          exact ⟨rfl, rfl, by omega, by omega⟩
      · simp [h1, h2] at hmem
    · simp [h1] at hmem
  · intro s sess ch k v m hmem
    unfold send_midi_control_change at hmem
    by_cases h1 : env.hasSessionManager
    · by_cases h2 : s ∈ env.sessions
      · cases h3 : env.midiSendResult s
            (MidiOut.ControlChange ((ch - 1) % 16) (k % 128) (v % 128)) <;>
          simp [h1, h2, h3] at hmem
        all_goals
          obtain ⟨rfl, rfl⟩ := hmem
          exact ⟨rfl, rfl, by omega, by omega, by omega⟩
      · simp [h1, h2] at hmem
    · simp [h1] at hmem

/-- Witness for C8_midi_clamping: channel 1 and program 200 sent to the live
session become channel 0 and program 72 on the wire. -/
theorem C8_midi_clamping_witness :
    Event.midiSend sessA (MidiOut.ProgramChange ((1 - 1) % 16) (200 % 128))
        ∈ (send_midi_command envLive mcfgAB (Destination.RtpMidi sessA) 1 200).1 ∧
    ((1 : Nat) - 1) % 16 < 16 ∧ (200 : Nat) % 128 < 128 := by
  have hmem : Event.midiSend sessA (MidiOut.ProgramChange ((1 - 1) % 16) (200 % 128))
      ∈ (send_midi_command envLive mcfgAB (Destination.RtpMidi sessA) 1 200).1 := by decide
  have h := (C8_midi_clamping envLive mcfgAB).1 sessA sessA 1 200
    (MidiOut.ProgramChange ((1 - 1) % 16) (200 % 128)) hmem
  exact ⟨hmem, h.2.2.1, h.2.2.2⟩

/-! ## Claim C9: non-ProgramChange MIDI messages are ignored -/

/-- True exactly on ProgramChange messages. -/
def MidiMessage.isProgramChange : MidiMessage → Bool
  | MidiMessage.ProgramChange _ _ => true
  | _ => false

/-- C9: any incoming MIDI message that is not a ProgramChange yields success,
a single debug log, no transport sends, and an unchanged processor state. -/
theorem C9_non_program_change (env : Env) (dcfg : DeviceConfig) (mcfg : MapConfig)
    (st : ProcState) (msg : MidiMessage) (h : msg.isProgramChange = false) :
    process_midi_message env dcfg mcfg st msg
      = (st, ([Event.logDebug LogMsg.ignoringMidiMessage], Except.ok ())) ∧
    (∀ e ∈ (process_midi_message env dcfg mcfg st msg).2.1, e.isSend = false) := by
  cases msg <;>
    simp_all [MidiMessage.isProgramChange, process_midi_message, Event.isSend]

/-- Witness for C9_non_program_change at a ControlChange message. -/
theorem C9_non_program_change_witness :
    process_midi_message env0 dcfg0 mcfg0 { current_bpm := none }
        (MidiMessage.ControlChange 1 2 3)
      = ({ current_bpm := none },
         ([Event.logDebug LogMsg.ignoringMidiMessage], Except.ok ())) :=
  (C9_non_program_change env0 dcfg0 mcfg0 { current_bpm := none }
    (MidiMessage.ControlChange 1 2 3) (by rfl)).1

/-! ## Claim C10: the tempo path accepts every bpm value unvalidated -/

/-- C10: `handle_osc_tempo` accepts every bpm: bpm 0 makes the Time scalar
positive infinity and the tap interval saturate to `2^64 - 1`; a negative
bpm gives a negative Time scalar (and a tap interval of 0); the Tempo scalar
passes any value through; and the handler stores the bpm and returns success
with no validation error for every input. -/
theorem C10_unvalidated_bpm :
    (quarter_note_ms (F.num 0) = 2 ^ 64 - 1) ∧
    (raw_tempo_value TempoDataType.Time (F.num 0) = F.inf false) ∧
    (∀ b : ℚ, b < 0 →
      raw_tempo_value TempoDataType.Time (F.num b) = F.num (60000 / b) ∧
      60000 / b < 0 ∧ quarter_note_ms (F.num b) = 0) ∧
    (∀ bpm : F, raw_tempo_value TempoDataType.Tempo bpm = bpm) ∧
    (∀ (env : Env) (st : ProcState) (bpm : F) (now : Nat)
        (obsF : Nat → Nat → Nat) (wobsF : Nat → Nat → Option Nat),
      (handle_osc_tempo env dcfg0 mcfg0 st bpm now obsF wobsF).1
          = { current_bpm := some bpm } ∧
      (handle_osc_tempo env dcfg0 mcfg0 st bpm now obsF wobsF).2
        = ([Event.logInfo LogMsg.tempoUpdatedViaOsc, Event.publish (now % u64Size),
            Event.publish ((now % u64Size + 1) % u64Size)], Except.ok ())) := by
  refine ⟨?_, ?_, ?_, fun bpm => rfl, ?_⟩
  · norm_num [quarter_note_ms, F.div, F.mul, F.toU64]
  · norm_num [raw_tempo_value, F.div, F.mul]
  · intro b hb
    have hb0 : b ≠ 0 := ne_of_lt hb
    have hneg : 60000 / b < 0 := div_neg_of_pos_of_neg (by norm_num) hb
    refine ⟨?_, hneg, ?_⟩
    · simp [raw_tempo_value, F.div, F.mul, hb0, div_mul_eq_mul_div]
      norm_num
    · have hval : F.mul (F.div (F.num 60) (F.num b)) (F.num 1000) = F.num (60000 / b) := by
        simp [F.div, F.mul, hb0, div_mul_eq_mul_div]
        norm_num
      rw [quarter_note_ms, hval]
      simp [F.toU64, hneg]
  · intro env st bpm now obsF wobsF
    rw [handle_osc_tempo_def, update_device_tempos_def]
    constructor
    · rfl
    · simp [collect_tempo_updates, dcfg0, mcfg0, tempo_fan_out, runSeqIdx]

/-- Witness for C10_unvalidated_bpm at bpm = -60 and a concrete handler
invocation. -/
theorem C10_unvalidated_bpm_witness :
    raw_tempo_value TempoDataType.Time (F.num (-60)) = F.num (60000 / (-60)) ∧
    quarter_note_ms (F.num (-60)) = 0 ∧
    (handle_osc_tempo env0 dcfg0 mcfg0 { current_bpm := none } (F.num (-60)) 5 obs0 wobs0).2
      = ([Event.logInfo LogMsg.tempoUpdatedViaOsc, Event.publish (5 % u64Size),
          Event.publish ((5 % u64Size + 1) % u64Size)], Except.ok ()) :=
  ⟨(C10_unvalidated_bpm.2.2.1 (-60) (by norm_num)).1,
   (C10_unvalidated_bpm.2.2.1 (-60) (by norm_num)).2.2,
   (C10_unvalidated_bpm.2.2.2.2 env0 { current_bpm := none } (F.num (-60)) 5 obs0 wobs0).2⟩
